import Mathlib

/-!
Verification of the funding-rate alert bot (src/bot.py) against its
natural-language specification.

The script is a single sequential poll loop.  We embed it shallowly:

* real-valued quantities (funding rates, epoch seconds, alert values) are
  modelled as exact rationals;
* Python `int()` truncation toward zero is modelled by `pyTrunc`;
* the per-instrument evaluation body (bot.py lines 126-165) becomes the pure
  function `evalObs`, taking the leverage-fetch outcome as an explicit
  `Option` argument;
* the per-cycle loop over the funding records (lines 121-165) becomes
  `processList`; the uncaught `KeyError` raised by `coin_data['symbol']`
  (line 122, outside the per-instrument try) is an `Except.error`;
* one iteration of the outer `while True` loop (lines 108-172) together with
  the crash handler (lines 177-181, which re-enters `main()` and hence
  rebuilds a fresh empty `already_alerted` set) becomes `runCycle`;
* the module top level (lines 1-20: the IP-echo request, then the credential
  check) becomes the event trace `startupTrace`.
-/

namespace RateTracker

/-- Python `int(x)` on a real value: truncation toward zero. -/
def pyTrunc (q : ℚ) : ℤ := if 0 ≤ q then ⌊q⌋ else ⌈q⌉

/-- Raw record from the funding-rate endpoint, field presence made explicit.
`symbol = none` models a record missing the `symbol` key.
`lastFundingRate = none` models a missing key, `some none` a string that
`float()` fails to parse, `some (some r)` a parsed fractional rate.
`nextFundingTime = none` models a missing key; otherwise epoch milliseconds. -/
structure RawObs where
  symbol : Option String
  lastFundingRate : Option (Option ℚ)
  nextFundingTime : Option ℤ
deriving DecidableEq

/-- bot.py line 128: `next_funding_time = coin_data['nextFundingTime'] / 1000`
(epoch seconds). -/
def next_funding_seconds (nextMs : ℤ) : ℚ := (nextMs : ℚ) / 1000

/-- bot.py lines 130-131:
`minutes_left = max(0, int(time_left.total_seconds() / 60))`. -/
def minutes_left (currentTime : ℚ) (nextMs : ℤ) : ℤ :=
  max 0 (pyTrunc ((next_funding_seconds nextMs - currentTime) / 60))

/-- bot.py line 146: the dedup key is the string
`f"{symbol}-{next_funding_time}"` built from the symbol and the raw
next-funding epoch-seconds value. -/
def alertId (symbol : String) (nextFundingSec : ℚ) : String :=
  symbol ++ "-" ++ toString nextFundingSec

/-- Outcome of evaluating one funding record inside the per-instrument `try`:
whether `get_max_leverage` was called, the alert notification sent (identified
by its dedup key) if any, and the dedup store afterwards. -/
structure EvalOutcome where
  fetchedLeverage : Bool
  notifiedId : Option String
  store : List String
deriving DecidableEq

/-- bot.py lines 126-165, the body of the per-instrument `try` block, for one
funding record whose symbol passed the eligibility check.  `levRes` is the
result of the `get_max_leverage(symbol)` call (`none` when that helper
returned `None`); it is only consulted when the code reaches line 137.
A missing `lastFundingRate` or `nextFundingTime` key (KeyError), or a rate
value `float()` cannot parse (ValueError), is caught by the handlers at lines
162-165 and the record is skipped. -/
def evalObs (levRes : Option ℤ) (currentTime : ℚ) (symbol : String)
    (rateField : Option (Option ℚ)) (nextField : Option ℤ)
    (store : List String) : EvalOutcome :=
  match rateField, nextField with
  | some (some rawRate), some nextMs =>
    let funding_rate : ℚ := rawRate * 100
    if minutes_left currentTime nextMs < 30 then ⟨false, none, store⟩
    else
      match levRes with
      | none => ⟨true, none, store⟩
      | some l =>
        if l = 0 then ⟨true, none, store⟩
        else
          let alert_value : ℚ := funding_rate * (l : ℚ)
          if 100 < |alert_value| then
            let id := alertId symbol (next_funding_seconds nextMs)
            if id ∈ store then ⟨true, none, store⟩
            else ⟨true, some id, id :: store⟩
          else ⟨true, none, store⟩
  | _, _ => ⟨false, none, store⟩

/-- Accumulated state of one pass over the funding records: the dedup store,
the dedup keys of the alerts sent this cycle (in order), and how many
leverage fetches were performed. -/
structure CycleAcc where
  store : List String
  firedIds : List String
  fetchCount : ℕ
deriving DecidableEq

deriving instance DecidableEq for Except

/-- bot.py lines 121-165 for a single record.  Line 122 reads
`coin_data['symbol']` outside the per-instrument `try`; a record without a
`symbol` key therefore raises an uncaught KeyError, modelled as
`Except.error` carrying the state reached so far.  Line 123 skips symbols
outside the eligible set before any other field is touched. -/
def processOne (validSymbols : List String) (lev : String → Option ℤ)
    (currentTime : ℚ) (obs : RawObs) (acc : CycleAcc) :
    Except CycleAcc CycleAcc :=
  match obs.symbol with
  | none => .error acc
  | some sym =>
    if sym ∈ validSymbols then
      let out := evalObs (lev sym) currentTime sym obs.lastFundingRate
        obs.nextFundingTime acc.store
      .ok ⟨out.store, acc.firedIds ++ out.notifiedId.toList,
        acc.fetchCount + (if out.fetchedLeverage then 1 else 0)⟩
    else .ok acc

/-- The `for coin_data in funding_data` loop, bot.py lines 121-165.  An
uncaught exception from `processOne` aborts the remainder of the loop. -/
def processList (validSymbols : List String) (lev : String → Option ℤ)
    (currentTime : ℚ) : List RawObs → CycleAcc → Except CycleAcc CycleAcc
  | [], acc => .ok acc
  | obs :: rest, acc =>
    match processOne validSymbols lev currentTime obs acc with
    | .ok acc' => processList validSymbols lev currentTime rest acc'
    | .error a => .error a

/-- bot.py line 22: `CHECK_INTERVAL = 1800`. -/
def CHECK_INTERVAL : ℕ := 1800

/-- Observable outcome of one iteration of the `while True` loop: how many
"no funding data" and "no lead found" Telegram messages were sent, whether
the crash notification was sent, the alerts fired, the leverage fetches
performed, the dedup store afterwards, and the seconds slept before the next
iteration. -/
structure CycleResult where
  noDataMsgs : ℕ
  noSignalMsgs : ℕ
  crashMsgs : ℕ
  firedIds : List String
  fetchCount : ℕ
  store : List String
  sleepSecs : ℕ
deriving DecidableEq

/-- One iteration of the `while True` loop, bot.py lines 108-172, together
with the crash handler at lines 177-181.  An empty fetch result (line 113)
sends one "no data" message and sleeps the full interval without touching
anything else.  If the record loop raises, the handler at line 177 sends the
crash message, sleeps 60 seconds and re-enters `main()`, whose line 102
rebuilds `already_alerted` as a fresh empty set; the "no lead" message of
lines 167-169 is then never reached. -/
def runCycle (validSymbols : List String) (lev : String → Option ℤ)
    (currentTime : ℚ) (fundingData : List RawObs) (store : List String) :
    CycleResult :=
  if fundingData.isEmpty then
    ⟨1, 0, 0, [], 0, store, CHECK_INTERVAL⟩
  else
    match processList validSymbols lev currentTime fundingData ⟨store, [], 0⟩ with
    | .ok acc =>
      ⟨0, if acc.firedIds.isEmpty then 1 else 0, 0, acc.firedIds,
        acc.fetchCount, acc.store, CHECK_INTERVAL⟩
    | .error a => ⟨0, 0, 1, a.firedIds, a.fetchCount, [], 60⟩

/-- Record from the exchange-info endpoint; the symbol itself plus the three
fields read with `.get` (absent keys yield `None`, modelled as `none`). -/
structure Instrument where
  symbol : String
  contractType : Option String
  quoteAsset : Option String
  status : Option String
deriving DecidableEq

/-- bot.py lines 61-66: the eligibility filter of
`get_valid_futures_symbols`. -/
def isEligible (s : Instrument) : Bool :=
  s.contractType == some "PERPETUAL" && s.quoteAsset == some "USDT" &&
    s.status == some "TRADING"

/-- bot.py lines 61-66: the set of symbols eligible for evaluation, computed
once at startup (membership is all that is ever consulted). -/
def get_valid_futures_symbols (symbols : List Instrument) : List String :=
  (symbols.filter isEligible).map Instrument.symbol

/-- Events observable from the module top level of bot.py. -/
inductive StartupEvent where
  | networkRequest (url : String)
  | printLine (msg : String)
  | exitProcess (code : ℕ)
deriving DecidableEq

/-- The four environment variables read at bot.py lines 14-17; `none` models
an unset variable. -/
structure Env where
  TELEGRAM_TOKEN : Option String
  TELEGRAM_CHAT_ID : Option String
  BINANCE_API_KEY : Option String
  BINANCE_API_SECRET : Option String
deriving DecidableEq

/-- All four credentials are present (no KeyError in the `try` at lines
13-17). -/
def credentialsPresent (e : Env) : Bool :=
  e.TELEGRAM_TOKEN.isSome && e.TELEGRAM_CHAT_ID.isSome &&
    e.BINANCE_API_KEY.isSome && e.BINANCE_API_SECRET.isSome

/-- bot.py lines 1-20 as an event trace.  Line 2 performs
`requests.get("https://api.ipify.org")` and prints the answer (`ipText` is
the response body) before the credential check; a missing credential then
prints the operator message and calls `sys.exit(1)`. -/
def startupTrace (e : Env) (ipText : String) : List StartupEvent :=
  [.networkRequest "https://api.ipify.org",
   .printLine ("Your Railway Public IP is: " ++ ipText)] ++
  (if credentialsPresent e then []
   else [.printLine "❗ Environment variables missing. Set them in Railway project settings.",
         .exitProcess 1])

/-- An event is an outbound network request. -/
def isNetwork : StartupEvent → Bool
  | .networkRequest _ => true
  | _ => false

/-- An event is a process exit with status 1. -/
def isExit1 : StartupEvent → Bool
  | .exitProcess c => c = 1
  | _ => false

/-- The portion of the trace strictly before the first exit-with-status-1
event contains no network request. -/
def exitBeforeAnyNetwork (tr : List StartupEvent) : Bool :=
  (tr.takeWhile (fun ev => !(isExit1 ev))).all (fun ev => !(isNetwork ev))

/-! ### Helper lemmas -/

/-- Clamping at zero erases the difference between truncation toward zero and
the floor: Python `max(0, int(x))` agrees with `max(0, floor(x))`. -/
theorem max_pyTrunc_eq_max_floor (q : ℚ) : max 0 (pyTrunc q) = max 0 ⌊q⌋ := by
  unfold pyTrunc
  rcases le_or_lt 0 q with h | h
  · rw [if_pos h]
  · rw [if_neg (not_le.mpr h)]
    have h1 : ⌈q⌉ ≤ (0 : ℤ) := Int.ceil_le.mpr (by exact_mod_cast h.le)
    have h2 : ⌊q⌋ ≤ (0 : ℤ) := Int.floor_nonpos h.le
    omega

/-- The store after evaluating one record: extended by the dedup key exactly
when the notification was sent, untouched otherwise. -/
theorem evalObs_store_eq (levRes : Option ℤ) (t : ℚ) (sym : String) (r : ℚ)
    (ms : ℤ) (store : List String) :
    (evalObs levRes t sym (some (some r)) (some ms) store).store =
      if (evalObs levRes t sym (some (some r)) (some ms) store).notifiedId.isSome
      then alertId sym (next_funding_seconds ms) :: store else store := by
  simp only [evalObs]
  by_cases h30 : minutes_left t ms < 30
  · simp [h30]
  · simp only [if_neg h30]
    cases levRes with
    | none => simp
    | some l =>
      by_cases hl : l = 0
      · simp [hl]
      · simp only [if_neg hl]
        by_cases hthr : 100 < |r * 100 * (l : ℚ)|
        · simp only [if_pos hthr]
          by_cases hmem : alertId sym (next_funding_seconds ms) ∈ store
          · simp [hmem]
          · simp [hmem]
        · simp [hthr]

/-- Exact characterisation of when the evaluation of one record sends the
alert notification. -/
theorem evalObs_notified_iff (levRes : Option ℤ) (t : ℚ) (sym : String)
    (r : ℚ) (ms : ℤ) (store : List String) :
    (evalObs levRes t sym (some (some r)) (some ms) store).notifiedId.isSome = true ↔
      (¬ minutes_left t ms < 30 ∧ ∃ l : ℤ, levRes = some l ∧ l ≠ 0 ∧
        100 < |r * 100 * (l : ℚ)| ∧ alertId sym (next_funding_seconds ms) ∉ store) := by
  simp only [evalObs]
  by_cases h30 : minutes_left t ms < 30
  · simp [h30]
  · simp only [if_neg h30]
    cases levRes with
    | none => simp [h30]
    | some l =>
      by_cases hl : l = 0
      · simp [hl, h30]
      · simp only [if_neg hl]
        by_cases hthr : 100 < |r * 100 * (l : ℚ)|
        · simp only [if_pos hthr]
          by_cases hmem : alertId sym (next_funding_seconds ms) ∈ store
          · simp [hmem, h30, hl, hthr]
          · simp [hmem, h30, hl, hthr]
        · simp [hthr, h30, hl]

/-- Evaluation of one record never discards a store entry. -/
theorem evalObs_store_mono (levRes : Option ℤ) (t : ℚ) (sym : String)
    (rf : Option (Option ℚ)) (nf : Option ℤ) (store : List String) :
    ∀ x ∈ store, x ∈ (evalObs levRes t sym rf nf store).store := by
  intro x hx
  match rf, nf with
  | none, _ => exact hx
  | some none, _ => exact hx
  | some (some r), none => exact hx
  | some (some r), some ms =>
    rw [evalObs_store_eq]
    split_ifs
    · exact List.mem_cons_of_mem _ hx
    · exact hx

/-- Processing one record never discards a store entry (when it does not
raise). -/
theorem processOne_store_mono (valid : List String) (lev : String → Option ℤ)
    (t : ℚ) (obs : RawObs) (acc acc' : CycleAcc)
    (h : processOne valid lev t obs acc = .ok acc') :
    ∀ x ∈ acc.store, x ∈ acc'.store := by
  cases hsym : obs.symbol with
  | none =>
    simp only [processOne, hsym] at h
    exact Except.noConfusion h
  | some sym =>
    simp only [processOne, hsym] at h
    by_cases hmem : sym ∈ valid
    · rw [if_pos hmem] at h
      injection h with h1
      subst h1
      exact fun x hx =>
        evalObs_store_mono (lev sym) t sym obs.lastFundingRate obs.nextFundingTime acc.store x hx
    · rw [if_neg hmem] at h
      injection h with h1
      subst h1
      exact fun x hx => hx

/-- A full pass over the funding records never discards a store entry. -/
theorem processList_store_mono (valid : List String) (lev : String → Option ℤ)
    (t : ℚ) (data : List RawObs) :
    ∀ acc acc', processList valid lev t data acc = .ok acc' →
      ∀ x ∈ acc.store, x ∈ acc'.store := by
  induction data with
  | nil =>
    intro acc acc' h x hx
    simp only [processList] at h
    cases h
    exact hx
  | cons obs rest ih =>
    intro acc acc' h x hx
    rw [processList] at h
    cases hp : processOne valid lev t obs acc with
    | error a => rw [hp] at h; exact Except.noConfusion h
    | ok acc1 =>
      rw [hp] at h
      exact ih acc1 acc' h x (processOne_store_mono valid lev t obs acc acc1 hp x hx)

/-! ### Claim theorems -/

/-- C1: for a funding observation that reaches the alert computation (fields
present, at least 30 minutes left, leverage fetched and nonzero), the alert
notification is sent and the dedup key added to the store if and only if the
alert value `fundingRatePercent * maxLeverage` exceeds 100 in absolute value
and the key `symbol ++ "-" ++ rawNextFundingEpochSeconds` is not already in
the store. -/
theorem alert_fires_iff_threshold_and_fresh (l : ℤ) (t : ℚ) (sym : String)
    (r : ℚ) (ms : ℤ) (store : List String) (hl : l ≠ 0)
    (h30 : ¬ minutes_left t ms < 30) :
    ((evalObs (some l) t sym (some (some r)) (some ms) store).notifiedId =
        some (alertId sym (next_funding_seconds ms)) ∧
      (evalObs (some l) t sym (some (some r)) (some ms) store).store =
        alertId sym (next_funding_seconds ms) :: store) ↔
      (100 < |r * 100 * (l : ℚ)| ∧
        alertId sym (next_funding_seconds ms) ∉ store) := by
  simp only [evalObs]
  rw [if_neg h30, if_neg hl]
  by_cases hthr : 100 < |r * 100 * (l : ℚ)|
  · rw [if_pos hthr]
    by_cases hmem : alertId sym (next_funding_seconds ms) ∈ store
    · simp [hmem, hthr]
    · simp [hmem, hthr]
  · simp [hthr]

/-- Witness for C1, the spec's own example: raw fractional rate 0.005 with
max leverage 250 gives alert value 0.5 percent times 250 = 125 > 100, and the
alert fires into an empty store. -/
theorem alert_fires_iff_threshold_and_fresh_witness :
    (1 / 200 : ℚ) * 100 * ((250 : ℤ) : ℚ) = 125 ∧
    ((evalObs (some 250) 0 "AAAUSDT" (some (some (1 / 200))) (some 3600000) []).notifiedId =
        some (alertId "AAAUSDT" (next_funding_seconds 3600000)) ∧
      (evalObs (some 250) 0 "AAAUSDT" (some (some (1 / 200))) (some 3600000) []).store =
        alertId "AAAUSDT" (next_funding_seconds 3600000) :: []) :=
  ⟨by norm_num,
    (alert_fires_iff_threshold_and_fresh 250 0 "AAAUSDT" (1 / 200) 3600000 []
        (by decide) (by with_unfolding_all decide)).mpr
      ⟨by with_unfolding_all decide, by simp⟩⟩

/-- C5: `minutes_left` as the code computes it (truncation toward zero, then
clamped at zero) coincides with `max(0, floor(secondsLeft / 60))`, and any
observation with fewer than 30 minutes left is skipped before the leverage
fetch: no fetch, no notification, store untouched. -/
theorem minutes_left_floor_and_skip_window (levRes : Option ℤ) (t : ℚ)
    (sym : String) (r : ℚ) (ms : ℤ) (store : List String) :
    minutes_left t ms = max 0 ⌊(next_funding_seconds ms - t) / 60⌋ ∧
    (minutes_left t ms < 30 →
      evalObs levRes t sym (some (some r)) (some ms) store =
        ⟨false, none, store⟩) := by
  constructor
  · exact max_pyTrunc_eq_max_floor _
  · intro h
    simp only [evalObs]
    rw [if_pos h]

/-- Witness for C5, the spec's own example: next funding 25 minutes away
(1500000 ms at instant 0), so even a huge rate with leverage available is
skipped without a fetch. -/
theorem minutes_left_floor_and_skip_window_witness :
    minutes_left 0 1500000 < 30 ∧
    evalObs (some 250) 0 "AAAUSDT" (some (some 5)) (some 1500000) [] =
      ⟨false, none, []⟩ :=
  ⟨by with_unfolding_all decide,
    (minutes_left_floor_and_skip_window (some 250) 0 "AAAUSDT" 5 1500000 []).2
      (by with_unfolding_all decide)⟩

/-- C7: re-evaluating the same funding observation against the store left by
a first evaluation that notified can never notify again: the dedup key is in
the store, so the second evaluation is silent. -/
theorem dedup_idempotent_second_eval (levRes : Option ℤ) (t : ℚ) (sym : String)
    (r : ℚ) (ms : ℤ) (store : List String)
    (h : (evalObs levRes t sym (some (some r)) (some ms) store).notifiedId.isSome = true) :
    (evalObs levRes t sym (some (some r)) (some ms)
        (evalObs levRes t sym (some (some r)) (some ms) store).store).notifiedId = none := by
  have hstore : (evalObs levRes t sym (some (some r)) (some ms) store).store =
      alertId sym (next_funding_seconds ms) :: store := by
    rw [evalObs_store_eq, if_pos h]
  rw [hstore]
  cases hopt : (evalObs levRes t sym (some (some r)) (some ms)
      (alertId sym (next_funding_seconds ms) :: store)).notifiedId with
  | none => rfl
  | some v =>
    exfalso
    have h2 : (evalObs levRes t sym (some (some r)) (some ms)
        (alertId sym (next_funding_seconds ms) :: store)).notifiedId.isSome = true := by
      rw [hopt]; rfl
    obtain ⟨-, l', -, -, -, hnm⟩ := (evalObs_notified_iff levRes t sym r ms
      (alertId sym (next_funding_seconds ms) :: store)).mp h2
    exact hnm (List.mem_cons_self _ _)

/-- Witness for C7: the alert fires once on an empty store, and the immediate
re-evaluation with the updated store stays silent. -/
theorem dedup_idempotent_second_eval_witness :
    (evalObs (some 250) 0 "AAAUSDT" (some (some (1 / 200))) (some 3600000)
        (evalObs (some 250) 0 "AAAUSDT" (some (some (1 / 200))) (some 3600000) []).store).notifiedId =
      none :=
  dedup_idempotent_second_eval (some 250) 0 "AAAUSDT" (1 / 200) 3600000 []
    (by with_unfolding_all decide)

/-- C10: a leverage fetch that returns the value 0 is treated exactly like an
absent result, because line 138 tests Python falsiness (`if not max_leverage`):
the record is skipped after the fetch, nothing is notified, and the store is
untouched. -/
theorem zero_leverage_treated_as_absent (t : ℚ) (sym : String) (r : ℚ)
    (ms : ℤ) (store : List String) :
    evalObs (some 0) t sym (some (some r)) (some ms) store =
      evalObs none t sym (some (some r)) (some ms) store ∧
    (¬ minutes_left t ms < 30 →
      evalObs (some 0) t sym (some (some r)) (some ms) store =
        ⟨true, none, store⟩) := by
  constructor
  · simp only [evalObs]
    by_cases h30 : minutes_left t ms < 30
    · rw [if_pos h30, if_pos h30]
    · rw [if_neg h30, if_neg h30]
      simp
  · intro h30
    simp only [evalObs]
    rw [if_neg h30]
    simp

/-- Witness for C10: zero leverage with a rate that would otherwise blow far
past the threshold still produces no notification. -/
theorem zero_leverage_treated_as_absent_witness :
    evalObs (some 0) 0 "AAAUSDT" (some (some 5)) (some 3600000) [] =
      ⟨true, none, []⟩ :=
  (zero_leverage_treated_as_absent 0 "AAAUSDT" 5 3600000 []).2
    (by with_unfolding_all decide)

/-- C8: a cycle whose funding fetch comes back empty sends exactly one
"no data" notification, performs no per-instrument evaluation (no leverage
fetch, no alert), leaves the dedup store untouched, and sleeps the full
1800-second interval. -/
theorem empty_funding_data_cycle (valid : List String) (lev : String → Option ℤ)
    (t : ℚ) (store : List String) :
    runCycle valid lev t [] store = ⟨1, 0, 0, [], 0, store, 1800⟩ := rfl

/-- C9: in a completed cycle over nonempty funding data, exactly one
"no signal" notification is sent when no alert fired, and none when at least
one alert fired. -/
theorem no_signal_iff_no_alert (valid : List String) (lev : String → Option ℤ)
    (t : ℚ) (data : List RawObs) (store : List String) (acc : CycleAcc)
    (hne : data ≠ [])
    (hok : processList valid lev t data ⟨store, [], 0⟩ = .ok acc) :
    (acc.firedIds = [] → (runCycle valid lev t data store).noSignalMsgs = 1) ∧
    (acc.firedIds ≠ [] → (runCycle valid lev t data store).noSignalMsgs = 0) := by
  have hrun : runCycle valid lev t data store =
      ⟨0, if acc.firedIds.isEmpty then 1 else 0, 0, acc.firedIds,
        acc.fetchCount, acc.store, CHECK_INTERVAL⟩ := by
    cases data with
    | nil => exact absurd rfl hne
    | cons o rest =>
      unfold runCycle
      rw [if_neg (by simp), hok]
  constructor
  · intro h
    rw [hrun]
    simp [h]
  · intro h
    rw [hrun]
    cases hfi : acc.firedIds with
    | nil => exact absurd hfi h
    | cons a l => simp [hfi]

/-- Witness for C9, the spec's own example: raw fractional rate 0.0004 with
max leverage 20 gives alert value 0.8, no alert fires, and the cycle sends
one "no signal" message. -/
theorem no_signal_iff_no_alert_witness :
    (runCycle ["AAAUSDT"] (fun _ => some 20) 0
      [⟨some "AAAUSDT", some (some (1 / 2500)), some 3600000⟩] []).noSignalMsgs = 1 :=
  (no_signal_iff_no_alert ["AAAUSDT"] (fun _ => some 20) 0
      [⟨some "AAAUSDT", some (some (1 / 2500)), some 3600000⟩] [] ⟨[], [], 1⟩
      (List.cons_ne_nil _ _) (by with_unfolding_all rfl)).1 rfl

/-- C6: a symbol is in the eligible set iff some instrument record carries it
with contractType PERPETUAL, quoteAsset USDT and status TRADING; and a
funding record whose symbol is outside the eligible set is passed over with
no processing at all, whatever its other fields contain. -/
theorem eligible_set_characterisation (info : List Instrument) (sym : String) :
    (sym ∈ get_valid_futures_symbols info ↔
      ∃ s, s ∈ info ∧ s.symbol = sym ∧ s.contractType = some "PERPETUAL" ∧
        s.quoteAsset = some "USDT" ∧ s.status = some "TRADING") ∧
    (∀ (lev : String → Option ℤ) (t : ℚ) (obs : RawObs) (acc : CycleAcc),
      obs.symbol = some sym → sym ∉ get_valid_futures_symbols info →
      processOne (get_valid_futures_symbols info) lev t obs acc = .ok acc) := by
  constructor
  · simp only [get_valid_futures_symbols, List.mem_map, List.mem_filter, isEligible,
      Bool.and_eq_true, beq_iff_eq]
    constructor
    · rintro ⟨s, ⟨hs, ⟨h1, h2⟩, h3⟩, h4⟩
      exact ⟨s, hs, h4, h1, h2, h3⟩
    · rintro ⟨s, hs, h4, h1, h2, h3⟩
      exact ⟨s, ⟨hs, ⟨h1, h2⟩, h3⟩, h4⟩
  · intro lev t obs acc hobs hmem
    simp only [processOne, hobs]
    rw [if_neg hmem]

/-- Witness for C6: a record for a symbol whose instrument is not TRADING is
skipped untouched even though its rate would blow past the threshold. -/
theorem eligible_set_characterisation_witness :
    processOne
      (get_valid_futures_symbols
        [⟨"AAAUSDT", some "PERPETUAL", some "USDT", some "TRADING"⟩,
         ⟨"BBBUSDT", some "PERPETUAL", some "USDT", some "BREAK"⟩])
      (fun _ => some 250) 0 ⟨some "BBBUSDT", some (some 5), some 3600000⟩
      ⟨[], [], 0⟩ = .ok ⟨[], [], 0⟩ :=
  (eligible_set_characterisation
      [⟨"AAAUSDT", some "PERPETUAL", some "USDT", some "TRADING"⟩,
       ⟨"BBBUSDT", some "PERPETUAL", some "USDT", some "BREAK"⟩] "BBBUSDT").2
    (fun _ => some 250) 0 ⟨some "BBBUSDT", some (some 5), some 3600000⟩
    ⟨[], [], 0⟩ rfl (by decide)

/-- Counterexample to C4 as stated: with all four credentials missing the
process still performs the IP-echo network request of bot.py line 2 before
the credential check, so the status-1 exit does not precede all network
activity. -/
theorem startup_network_before_exit_cex :
    credentialsPresent ⟨none, none, none, none⟩ = false ∧
    StartupEvent.exitProcess 1 ∈ startupTrace ⟨none, none, none, none⟩ "" ∧
    exitBeforeAnyNetwork (startupTrace ⟨none, none, none, none⟩ "") = false := by
  decide

/-- C4 amended: with any credential missing the process prints the operator
message and exits with status 1, and the only activity preceding that exit is
the IP-echo request of line 2 (one network request and its print); in
particular no exchange or chat endpoint is contacted before the exit. -/
theorem missing_credentials_exit_trace (e : Env) (ip : String)
    (h : credentialsPresent e = false) :
    startupTrace e ip =
      [.networkRequest "https://api.ipify.org",
       .printLine ("Your Railway Public IP is: " ++ ip),
       .printLine "❗ Environment variables missing. Set them in Railway project settings.",
       .exitProcess 1] := by
  simp [startupTrace, h]

/-- Witness for the amended C4 at a concrete environment with no credentials
set. -/
theorem missing_credentials_exit_trace_witness :
    credentialsPresent ⟨none, none, none, none⟩ = false ∧
    startupTrace ⟨none, none, none, none⟩ "203.0.113.7" =
      [.networkRequest "https://api.ipify.org",
       .printLine ("Your Railway Public IP is: " ++ "203.0.113.7"),
       .printLine "❗ Environment variables missing. Set them in Railway project settings.",
       .exitProcess 1] :=
  ⟨by decide, missing_credentials_exit_trace ⟨none, none, none, none⟩ "203.0.113.7" (by decide)⟩

set_option maxRecDepth 10000 in
/-- Counterexample to C2 as stated: an AlertRecord created in one cycle is
gone after a later cycle of the same process crashes (here on a record
missing its symbol key), because the handler at bot.py lines 177-181
re-enters `main()` and line 102 rebuilds `already_alerted` empty — entries
are removed during the process lifetime. -/
theorem dedup_entries_removed_on_crash_cex :
    (runCycle ["AAAUSDT"] (fun s => if s = "AAAUSDT" then some 250 else none) 0
        [⟨some "AAAUSDT", some (some (1 / 200)), some 3600000⟩] []).store =
      ["AAAUSDT-3600"] ∧
    (runCycle ["AAAUSDT"] (fun s => if s = "AAAUSDT" then some 250 else none) 0
        [⟨none, none, none⟩] ["AAAUSDT-3600"]).store = [] := by
  with_unfolding_all decide

/-- C2 amended: within one incarnation of the orchestrator (between a start
of `main` and the next crash), a dedup entry is created exactly when its
(symbol, nextFundingTime) pair clears every gate and exceeds the threshold
for the first time, and a completed pass never removes an entry. -/
theorem dedup_invariant_within_incarnation :
    (∀ (levRes : Option ℤ) (t : ℚ) (sym : String) (r : ℚ) (ms : ℤ)
      (store : List String),
      ((evalObs levRes t sym (some (some r)) (some ms) store).store =
        if (evalObs levRes t sym (some (some r)) (some ms) store).notifiedId.isSome
        then alertId sym (next_funding_seconds ms) :: store else store) ∧
      ((evalObs levRes t sym (some (some r)) (some ms) store).notifiedId.isSome = true ↔
        (¬ minutes_left t ms < 30 ∧ ∃ l : ℤ, levRes = some l ∧ l ≠ 0 ∧
          100 < |r * 100 * (l : ℚ)| ∧
          alertId sym (next_funding_seconds ms) ∉ store))) ∧
    (∀ (valid : List String) (lev : String → Option ℤ) (t : ℚ)
      (data : List RawObs) (acc acc' : CycleAcc),
      processList valid lev t data acc = .ok acc' →
      ∀ x ∈ acc.store, x ∈ acc'.store) :=
  ⟨fun levRes t sym r ms store =>
    ⟨evalObs_store_eq levRes t sym r ms store,
      evalObs_notified_iff levRes t sym r ms store⟩,
   processList_store_mono⟩

set_option maxRecDepth 10000 in
/-- Witness for the amended C2: a pre-existing entry survives a completed
pass in which a new alert fires. -/
theorem dedup_invariant_within_incarnation_witness :
    "OLD" ∈ (⟨["AAAUSDT-3600", "OLD"], ["AAAUSDT-3600"], 1⟩ : CycleAcc).store :=
  dedup_invariant_within_incarnation.2 ["AAAUSDT"]
    (fun s => if s = "AAAUSDT" then some 250 else none) 0
    [⟨some "AAAUSDT", some (some (1 / 200)), some 3600000⟩]
    ⟨["OLD"], [], 0⟩ ⟨["AAAUSDT-3600", "OLD"], ["AAAUSDT-3600"], 1⟩
    (by with_unfolding_all rfl) "OLD" (by simp)

set_option maxRecDepth 10000 in
/-- Counterexample to C3 as stated: a funding record missing its `symbol`
field raises at bot.py line 122, outside the per-instrument try, so the whole
cycle aborts into the crash handler, and a later record in the same cycle
that would have fired is never evaluated. -/
theorem missing_symbol_aborts_cycle_cex :
    processList ["AAAUSDT"] (fun s => if s = "AAAUSDT" then some 250 else none) 0
        [⟨none, none, none⟩, ⟨some "AAAUSDT", some (some (1 / 200)), some 3600000⟩]
        ⟨[], [], 0⟩ = .error ⟨[], [], 0⟩ ∧
    runCycle ["AAAUSDT"] (fun s => if s = "AAAUSDT" then some 250 else none) 0
        [⟨none, none, none⟩, ⟨some "AAAUSDT", some (some (1 / 200)), some 3600000⟩] [] =
      ⟨0, 0, 1, [], 0, [], 60⟩ ∧
    (runCycle ["AAAUSDT"] (fun s => if s = "AAAUSDT" then some 250 else none) 0
        [⟨some "AAAUSDT", some (some (1 / 200)), some 3600000⟩] []).firedIds =
      ["AAAUSDT-3600"] := by
  with_unfolding_all decide

/-- C3 amended: every per-instrument failure after the symbol has been
extracted — missing or unparseable rate field, missing next-funding field,
failed leverage fetch — is caught and skips only that record, and a cycle
over records that all carry a symbol always runs to completion. -/
theorem errors_after_symbol_extraction_are_caught :
    (∀ (levRes : Option ℤ) (t : ℚ) (sym : String) (nf : Option ℤ)
      (store : List String),
      evalObs levRes t sym none nf store = ⟨false, none, store⟩) ∧
    (∀ (levRes : Option ℤ) (t : ℚ) (sym : String) (nf : Option ℤ)
      (store : List String),
      evalObs levRes t sym (some none) nf store = ⟨false, none, store⟩) ∧
    (∀ (levRes : Option ℤ) (t : ℚ) (sym : String) (r : ℚ)
      (store : List String),
      evalObs levRes t sym (some (some r)) none store = ⟨false, none, store⟩) ∧
    (∀ (valid : List String) (lev : String → Option ℤ) (t : ℚ)
      (data : List RawObs) (acc : CycleAcc),
      (∀ o ∈ data, o.symbol.isSome = true) →
      ∃ acc', processList valid lev t data acc = .ok acc') := by
  refine ⟨fun _ _ _ _ _ => rfl, fun _ _ _ _ _ => rfl, fun _ _ _ _ _ => rfl, ?_⟩
  intro valid lev t data
  induction data with
  | nil => exact fun acc _ => ⟨acc, rfl⟩
  | cons obs rest ih =>
    intro acc h
    have hs : obs.symbol.isSome = true := h obs (List.mem_cons_self _ _)
    cases hsym : obs.symbol with
    | none => rw [hsym] at hs; exact absurd hs (by simp)
    | some sym =>
      have hrest : ∀ o ∈ rest, o.symbol.isSome = true :=
        fun o ho => h o (List.mem_cons_of_mem _ ho)
      rw [processList]
      have hone : ∃ acc1, processOne valid lev t obs acc = .ok acc1 := by
        simp only [processOne, hsym]
        by_cases hmem : sym ∈ valid
        · rw [if_pos hmem]; exact ⟨_, rfl⟩
        · rw [if_neg hmem]; exact ⟨_, rfl⟩
      obtain ⟨acc1, h1⟩ := hone
      rw [h1]
      exact ih acc1 hrest

/-- Witness for the amended C3: a record missing its rate field and a record
whose rate fails to parse are both skipped and the pass completes. -/
theorem errors_after_symbol_extraction_are_caught_witness :
    ∃ acc', processList ["AAAUSDT"] (fun _ => some 250) 0
      [⟨some "AAAUSDT", none, none⟩, ⟨some "AAAUSDT", some none, some 3600000⟩]
      ⟨[], [], 0⟩ = .ok acc' :=
  errors_after_symbol_extraction_are_caught.2.2.2 ["AAAUSDT"] (fun _ => some 250) 0
    [⟨some "AAAUSDT", none, none⟩, ⟨some "AAAUSDT", some none, some 3600000⟩]
    ⟨[], [], 0⟩ (by decide)

end RateTracker
